import Mathlib

/-!
Shallow embedding of the savant-logger frontend (the code under `src/`):
the device view (`DeviceTable`), its diff rendering helpers
(`getDiffStyle`, `renderDiffValue`), the crash-details modal
(`CrashDetails`), the device filters (`filteredDevices`), the project
selector (`ProjectSelector`) and the upload entry point (`FileUploader`).

JavaScript-specific semantics are embedded explicitly: an optional string
value is falsy exactly when it is `undefined` or the empty string, an
array (even an empty one) is truthy, and a template literal renders
`undefined` as the text `undefined`.
-/

namespace SavantLogger

/-- JS truthiness of a value that is either a string or `undefined`
(`none`): `undefined` and the empty string are falsy. -/
def jsTruthy : Option String → Bool
  | none => false
  | some s => !(s == "")

/-- JS template-literal interpolation of a possibly-`undefined` string:
`undefined` renders as the text `undefined`. -/
def jsTemplateOpt : Option String → String
  | none => "undefined"
  | some s => s

/-- `network_data` of one snapshot as the `DeviceTable` receives it
(accessed without optional chaining in the source, hence required). -/
structure NetworkData where
  ip : String
  state : String
  rssi : String
  devicetype : String
deriving DecidableEq

/-- `health_data` of one snapshot. The source reads it through optional
chaining (`health_data?.`), so at the view boundary it is optional. -/
structure HealthData where
  deviceName : String
  reason : String
  overallHealthRate : String
deriving DecidableEq

/-- One snapshot (`current` or `previous`) of a device as rendered. -/
structure SnapshotView where
  network_data : NetworkData
  health_data : Option HealthData
  capture_timestamp : String
deriving DecidableEq

/-- One `lighting_history` entry. -/
structure LightingEntry where
  state : String
  timestamp : String
deriving DecidableEq

/-- One `related_crashes` entry. -/
structure CrashEntry where
  process : String
  timestamp : String
  content : String
deriving DecidableEq

/-- One element of the device list served to `DeviceTable`. -/
structure DeviceData where
  id : Nat
  device_id : String
  current : SnapshotView
  previous : Option SnapshotView
  related_crashes : Option (List CrashEntry)
  lighting_history : Option (List LightingEntry)
deriving DecidableEq

/-- The style object produced by `getDiffStyle`: either the empty object
or a highlight with a background colour and `position: relative`. -/
structure DiffStyle where
  backgroundColor : Option String
  positionRelative : Bool
deriving DecidableEq

/-- `getDiffStyle(current, previous)` from `DeviceTable`: returns the
empty style when `previous` is falsy (`undefined` or empty) or equal to
`current`; otherwise a green highlight when `current` is `found`, red
otherwise. -/
def getDiffStyle (current : String) (previous : Option String) : DiffStyle :=
  if !(jsTruthy previous) || previous == some current then
    { backgroundColor := none, positionRelative := false }
  else
    { backgroundColor := some (if current == "found" then "bg-green-100" else "bg-red-100"),
      positionRelative := true }

/-- What `renderDiffValue` emits: the bare current value, or the current
value together with a hover tooltip holding the previous value. -/
inductive DiffRendering where
  | plain (value : String)
  | withTooltip (value : String) (tooltip : String)
deriving DecidableEq

/-- `renderDiffValue(current, previous)` from `DeviceTable`: returns the
bare current value when `previous` is falsy (`undefined` or empty) or
equal to `current`; otherwise the current value with a tooltip
`Previous: <previous>`. -/
def renderDiffValue (current : String) (previous : Option String) : DiffRendering :=
  if !(jsTruthy previous) || previous == some current then
    DiffRendering.plain current
  else
    DiffRendering.withTooltip current ("Previous: " ++ (previous.getD ""))

/-- The state cell of a device row: `renderDiffValue` applied to the
current and optional previous `network_data.state`. -/
def renderedStateCell (d : DeviceData) : DiffRendering :=
  renderDiffValue d.current.network_data.state
    (d.previous.map (fun s => s.network_data.state))

/-- The RSSI cell of a device row: `renderDiffValue` applied to the
current and optional previous `network_data.rssi`. -/
def renderedRssiCell (d : DeviceData) : DiffRendering :=
  renderDiffValue d.current.network_data.rssi
    (d.previous.map (fun s => s.network_data.rssi))

/-- One block of the Status cell of a device row: the reason text, the
crash-details block, or the recent-history block. -/
inductive StatusCellPart where
  | reasonText (r : Option String)
  | crashBlock (crashes : List CrashEntry)
  | historyBlock (entries : List LightingEntry)
deriving DecidableEq

/-- The crash part of the Status cell: `device.related_crashes && <CrashDetails/>`
mounts the component when the array is present (any array is truthy in
JS), and `CrashDetails` itself renders nothing when the array is empty. -/
def crashBlockParts : Option (List CrashEntry) → List StatusCellPart
  | none => []
  | some cs => if cs = [] then [] else [StatusCellPart.crashBlock cs]

/-- The recent-history part of the Status cell:
`device.lighting_history && device.current.network_data.state !== 'found'`
guards a block holding `lighting_history.slice(0, 5)`. -/
def historyBlockParts (d : DeviceData) : List StatusCellPart :=
  match d.lighting_history with
  | none => []
  | some es =>
    if d.current.network_data.state = "found" then []
    else [StatusCellPart.historyBlock (es.take 5)]

/-- The Status cell of a device row: reason text, then the crash block
when present, then the recent-history block when its guard holds. -/
def renderStatusCell (d : DeviceData) : List StatusCellPart :=
  [StatusCellPart.reasonText (d.current.health_data.map HealthData.reason)]
    ++ crashBlockParts d.related_crashes ++ historyBlockParts d

/-- Example network data used in concrete evaluations. -/
def exNet (st rssi : String) : NetworkData :=
  { ip := "10.0.0.1", state := st, rssi := rssi, devicetype := "lamp" }

/-- Example health data used in concrete evaluations. -/
def exHealth : HealthData :=
  { deviceName := "Lamp A", reason := "ok", overallHealthRate := "97" }

/-- Example snapshot used in concrete evaluations. -/
def exSnap (st rssi : String) : SnapshotView :=
  { network_data := exNet st rssi, health_data := some exHealth,
    capture_timestamp := "2024-01-01T00:00:00Z" }

/-- A six-entry lighting history, chronological oldest-first as the
store keeps it. -/
def exHist6 : List LightingEntry :=
  [{ state := "on", timestamp := "t0" }, { state := "off", timestamp := "t1" },
   { state := "on", timestamp := "t2" }, { state := "off", timestamp := "t3" },
   { state := "on", timestamp := "t4" }, { state := "off", timestamp := "t5" }]

/-- A device with no previous snapshot, current state `missing`, and a
one-entry lighting history. -/
def exDev2 : DeviceData :=
  { id := 2, device_id := "dev-2", current := exSnap "missing" "-70",
    previous := none, related_crashes := none,
    lighting_history := some [{ state := "on", timestamp := "t0" }] }

/-- A device whose state left `found` and which carries `exHist6`. -/
def exDev3 : DeviceData :=
  { id := 3, device_id := "dev-3", current := exSnap "missing" "-70",
    previous := some (exSnap "found" "-40"), related_crashes := none,
    lighting_history := some exHist6 }

/-- A device whose previous snapshot is present but records an empty
RSSI, while the current RSSI is `-70`. -/
def exDev4 : DeviceData :=
  { id := 4, device_id := "dev-4", current := exSnap "missing" "-70",
    previous := some { network_data := exNet "missing" "",
                       health_data := some exHealth,
                       capture_timestamp := "2024-01-01T00:00:00Z" },
    related_crashes := none, lighting_history := none }

/-- The spec scenario device: previous `found`/`-40`, current
`missing`/`-70`. -/
def exDev4w : DeviceData :=
  { id := 41, device_id := "dev-1", current := exSnap "missing" "-70",
    previous := some (exSnap "found" "-40"), related_crashes := none,
    lighting_history := none }

/-- Entity decoding the browser applies to character references when
markup is assigned through `innerHTML` (the references relevant here:
amp, lt, gt). -/
def decodeEntities : List Char → List Char
  | [] => []
  | '&' :: 'a' :: 'm' :: 'p' :: ';' :: rest => '&' :: decodeEntities rest
  | '&' :: 'l' :: 't' :: ';' :: rest => '<' :: decodeEntities rest
  | '&' :: 'g' :: 't' :: ';' :: rest => '>' :: decodeEntities rest
  | c :: rest => c :: decodeEntities rest

/-- Tag stripping the browser applies when markup is assigned through
`innerHTML`: characters between `<` and `>` are element structure, not
text. The flag records whether the scan is inside a tag. -/
def stripTags : List Char → Bool → List Char
  | [], _ => []
  | '<' :: rest, _ => stripTags rest true
  | '>' :: rest, true => stripTags rest false
  | _ :: rest, true => stripTags rest true
  | c :: rest, false => c :: stripTags rest false

/-- The text the browser presents for markup assigned to `innerHTML`,
for the fragment subset arising here: tags dropped, character
references decoded. -/
def htmlTextContent (s : String) : String :=
  String.mk (decodeEntities (stripTags s.data false))

/-- The markup the View Details button of `CrashDetails` assigns to
`modal.innerHTML`: the template literal wrapping the crash content in a
`pre` element. -/
def crashModalMarkup (content : String) : String :=
  "<pre>" ++ content ++ "</pre>"

/-- The text the operator is presented when viewing a crash's details:
the browser text content of the markup assigned to the modal. -/
def displayedCrashContent (content : String) : String :=
  htmlTextContent (crashModalMarkup content)

/-- The current-value argument of the Health Rate cell: the template
literal appends `%` unconditionally and renders an absent health rate
as the text `undefined`. -/
def healthRateCurrentText (d : DeviceData) : String :=
  jsTemplateOpt (d.current.health_data.map HealthData.overallHealthRate) ++ "%"

/-- The previous-value argument of the Health Rate cell:
`previous?.health_data?.overallHealthRate && rate%` evaluates to
`undefined` when the chain is absent, to the empty string when the rate
is empty (both falsy), otherwise to the rate with `%` appended. -/
def healthRatePrevArg (d : DeviceData) : Option String :=
  match d.previous.bind (fun p => p.health_data) with
  | none => none
  | some h =>
    if h.overallHealthRate = "" then some ""
    else some (h.overallHealthRate ++ "%")

/-- The Health Rate cell of a device row. -/
def renderedHealthRateCell (d : DeviceData) : DiffRendering :=
  renderDiffValue (healthRateCurrentText d) (healthRatePrevArg d)

/-- A device whose current health rate is the non-numeric raw string
`warming-up`. -/
def exDev6 : DeviceData :=
  { id := 6, device_id := "dev-6",
    current := { network_data := exNet "found" "-40",
                 health_data := some { deviceName := "Lamp B", reason := "ok",
                                       overallHealthRate := "warming-up" },
                 capture_timestamp := "2024-01-01T00:00:00Z" },
    previous := none, related_crashes := none, lighting_history := none }

/-- A device whose current `health_data` is absent. -/
def exDev6b : DeviceData :=
  { id := 7, device_id := "dev-7",
    current := { network_data := exNet "found" "-40", health_data := none,
                 capture_timestamp := "2024-01-01T00:00:00Z" },
    previous := none, related_crashes := none, lighting_history := none }

/-- A dropped file as the browser reports it: a name and a declared
MIME type. -/
structure JsFile where
  name : String
  type : String
deriving DecidableEq

/-- Character-by-character lower-casing, as `toLowerCase` acts on the
ASCII names and filter strings arising here. -/
def strToLower (s : String) : String :=
  String.mk (s.data.map Char.toLower)

/-- Whether `s` ends with `post`. -/
def strEndsWith (s post : String) : Bool :=
  post.data.isSuffixOf s.data

/-- Substring containment as `String.prototype.includes` tests it. -/
def strContainsSub (hay needle : String) : Bool :=
  (List.range (hay.data.length + 1)).any
    (fun i => needle.data.isPrefixOf (hay.data.drop i))

/-- The accept matching `useDropzone` applies for the option
`accept: application/gzip mapped to .tgz` (attr-accept semantics): a
dropped file passes when its declared MIME type equals
`application/gzip` or its lowercased name ends with `.tgz`; a file
passing neither is rejected and never reaches `onDrop`. -/
def dropzoneAccepts (f : JsFile) : Bool :=
  f.type == "application/gzip" || strEndsWith (strToLower f.name) ".tgz"

/-- The file `onDrop` submits for ingestion: `onDrop` receives the
accepted files and uploads `acceptedFiles[0]`, returning without a
submission when there is none. -/
def submittedFile (dropped : List JsFile) : Option JsFile :=
  (dropped.filter dropzoneAccepts).head?

/-- A file with a `.tgz` name but a different declared MIME type. -/
def exFile8 : JsFile := { name := "capture.tgz", type := "text/plain" }

/-- A file with a `.tgz` name and the `application/gzip` MIME type. -/
def exFile8b : JsFile := { name := "bundle.tgz", type := "application/gzip" }

/-- The state predicate of `filteredDevices`: an empty filter matches
everything; otherwise the lowercased current state must contain the
lowercased filter. -/
def matchesState (stateFilter : String) (d : DeviceData) : Bool :=
  stateFilter == "" ||
    strContainsSub (strToLower d.current.network_data.state) (strToLower stateFilter)

/-- The name predicate of `filteredDevices`:
`!nameFilter || health_data?.deviceName...includes(...)` — the optional
chain yields `undefined` (falsy, hence a non-match) when `health_data`
is absent. -/
def matchesName (nameFilter : String) (d : DeviceData) : Bool :=
  nameFilter == "" ||
    (match d.current.health_data with
     | none => false
     | some h => strContainsSub (strToLower h.deviceName) (strToLower nameFilter))

/-- `filteredDevices` from `DeviceTable`: the devices passing both the
state predicate and the name predicate. -/
def filteredDevices (stateFilter nameFilter : String)
    (devices : List DeviceData) : List DeviceData :=
  devices.filter (fun d => matchesState stateFilter d && matchesName nameFilter d)

/-- A device whose snapshot lacks `health_data`. -/
def exDev9 : DeviceData :=
  { id := 9, device_id := "dev-9",
    current := { network_data := exNet "missing" "-60", health_data := none,
                 capture_timestamp := "2024-01-02T00:00:00Z" },
    previous := none, related_crashes := none, lighting_history := none }

/-- The UI selection state of the page: the selected project and the
selected capture. -/
structure AppState where
  selectedProject : Option Int
  selectedCapture : Option Int
deriving DecidableEq

/-- `parseInt` on the decimal option values of the project select. -/
def parseIntJS (s : String) : Int :=
  (s.toInt?).getD 0

/-- The change handler of the project select element: parses the chosen
value (the empty placeholder becomes `null`), reports the project, and
resets the capture selection to `null` in the same handler. -/
def projectSelectorOnChange (targetValue : String) (_s : AppState) : AppState :=
  let projectId := if targetValue = "" then none else some (parseIntJS targetValue)
  { selectedProject := projectId, selectedCapture := none }

/-- The upload-success handler of the page: selects the uploaded
project and resets the capture selection. -/
def handleUploadSuccess (projectId : Int) (_s : AppState) : AppState :=
  { selectedProject := some projectId, selectedCapture := none }

/-- The capture part of the device-view query URL:
`captureId ? capture_id query : empty` — also empty for the falsy id
`0`. -/
def captureQuerySuffix : Option Int → String
  | none => ""
  | some c => if c = 0 then "" else "?capture_id=" ++ toString c

/-- The device-view query URL `DeviceTable` fetches. -/
def deviceQueryUrl (projectId : Int) (captureId : Option Int) : String :=
  "http://localhost:8000/project/" ++ toString projectId ++ "/devices"
    ++ captureQuerySuffix captureId

end SavantLogger

namespace SavantLogger

/-- `renderDiffValue` on a present, non-empty, different previous value:
the changed case, surfacing both values. -/
theorem renderDiffValue_changed (c p : String) (hne : p ≠ "") (hdiff : c ≠ p) :
    renderDiffValue c (some p) = DiffRendering.withTooltip c ("Previous: " ++ p) := by
  have h1 : jsTruthy (some p) = true := by
    simp [jsTruthy, hne]
  have h2 : ((some p : Option String) == some c) = false := by
    simp [Ne.symm hdiff]
  simp [renderDiffValue, h1, h2]

end SavantLogger

namespace SavantLogger

/-- Claim C1, counterexample: a device whose current state is present
(`found`) but which has no previous snapshot is rendered and styled
exactly like an unchanged device whose previous state equals the current
one — the `appeared` case is not distinguished from `unchanged` by the
view. -/
theorem C1_counterexample :
    renderDiffValue "found" none = renderDiffValue "found" (some "found") ∧
    getDiffStyle "found" none = getDiffStyle "found" (some "found") := by
  constructor <;> rfl

/-- Claim C1, amended: whenever the previous value is falsy (absent, or
the empty string), rendering and styling coincide with the unchanged
case — the view distinguishes a field only when the previous value is
present, non-empty and different from the current value. -/
theorem C1_amended (c : String) (p : Option String) (h : jsTruthy p = false) :
    renderDiffValue c p = renderDiffValue c (some c) ∧
    getDiffStyle c p = getDiffStyle c (some c) := by
  constructor
  · simp [renderDiffValue, h]
  · simp [getDiffStyle, h]

/-- Witness for `C1_amended` at a concrete input. -/
theorem C1_amended_witness :
    jsTruthy none = false ∧
    renderDiffValue "missing" none = renderDiffValue "missing" (some "missing") ∧
    getDiffStyle "missing" none = getDiffStyle "missing" (some "missing") :=
  ⟨rfl, C1_amended "missing" none rfl⟩

/-- Claim C2, counterexample: a device with no previous snapshot at all
(so its state cannot have transitioned away from `found`) still gets the
lighting-history block, because the guard only checks that the current
state is not `found` and that `lighting_history` is present. -/
theorem C2_counterexample :
    exDev2.previous = none ∧
    StatusCellPart.historyBlock [{ state := "on", timestamp := "t0" }] ∈
      renderStatusCell exDev2 := by
  constructor
  · rfl
  · decide

/-- The recent-history block never comes from the crash part of the
Status cell. -/
theorem historyBlock_not_mem_crashBlockParts (oc : Option (List CrashEntry))
    (es : List LightingEntry) :
    StatusCellPart.historyBlock es ∉ crashBlockParts oc := by
  rcases oc with _ | cs
  · simp [crashBlockParts]
  · by_cases he : cs = [] <;> simp [crashBlockParts, he]

/-- Claim C2, amended: the lighting-history block is surfaced if and
only if the device's `lighting_history` field is present and the current
state is not `found`; the previous snapshot's state plays no role. -/
theorem C2_amended (d : DeviceData) :
    (∃ es, StatusCellPart.historyBlock es ∈ renderStatusCell d) ↔
      (d.lighting_history.isSome = true ∧ d.current.network_data.state ≠ "found") := by
  constructor
  · rintro ⟨es, hmem⟩
    simp only [renderStatusCell, List.mem_append, List.mem_singleton] at hmem
    rcases hmem with (h | h) | h
    · simp at h
    · exact absurd h (historyBlock_not_mem_crashBlockParts _ _)
    · by_cases hs : d.current.network_data.state = "found"
      · rcases hl : d.lighting_history with _ | es' <;>
          simp [historyBlockParts, hl, hs] at h
      · rcases hl : d.lighting_history with _ | es'
        · simp [historyBlockParts, hl] at h
        · exact ⟨by simp [hl], hs⟩
  · rintro ⟨hsome, hne⟩
    rcases hl : d.lighting_history with _ | es
    · rw [hl] at hsome
      simp at hsome
    · refine ⟨es.take 5, ?_⟩
      simp [renderStatusCell, historyBlockParts, hl, hne]

/-- Claim C3: the code surfaces `lighting_history.slice(0, 5)` — the
initial prefix (oldest entries, given oldest-first storage order) — and
not the final five entries, although the block is labelled recent
history; on a six-entry history the shown block equals the first five
entries and differs from the last five. -/
theorem C3_code_bug :
    StatusCellPart.historyBlock (exHist6.take 5) ∈ renderStatusCell exDev3 ∧
    exHist6.take 5 ≠ exHist6.drop 1 ∧
    (exHist6.take 5).length ≤ 5 := by
  refine ⟨by decide, by decide, by decide⟩

/-- Claim C4, counterexample: a device whose previous snapshot is
present but records an empty RSSI, with a differing current RSSI, is
rendered as the bare current value — the previous value is neither
classified as changed nor surfaced, because the empty string is falsy. -/
theorem C4_counterexample :
    exDev4.previous.map (fun s => s.network_data.rssi) = some "" ∧
    exDev4.current.network_data.rssi ≠ "" ∧
    renderedRssiCell exDev4 = DiffRendering.plain "-70" := by
  refine ⟨rfl, by decide, by decide⟩

/-- Claim C4, amended: for a device whose previous snapshot is present,
any tracked network field (state, RSSI) whose previous value is
non-empty and differs from the current value is rendered as changed,
surfacing the current value with the previous value in the tooltip. -/
theorem C4_theorem (d : DeviceData) (p : SnapshotView) (hp : d.previous = some p) :
    (p.network_data.state ≠ "" → d.current.network_data.state ≠ p.network_data.state →
      renderedStateCell d = DiffRendering.withTooltip d.current.network_data.state
        ("Previous: " ++ p.network_data.state)) ∧
    (p.network_data.rssi ≠ "" → d.current.network_data.rssi ≠ p.network_data.rssi →
      renderedRssiCell d = DiffRendering.withTooltip d.current.network_data.rssi
        ("Previous: " ++ p.network_data.rssi)) := by
  constructor
  · intro hne hdiff
    rw [renderedStateCell, hp]
    exact renderDiffValue_changed _ _ hne hdiff
  · intro hne hdiff
    rw [renderedRssiCell, hp]
    exact renderDiffValue_changed _ _ hne hdiff

/-- Witness for `C4_theorem` at the spec scenario: state changed
found→missing and RSSI changed -40→-70, both surfaced with tooltips. -/
theorem C4_theorem_witness :
    exDev4w.previous = some (exSnap "found" "-40") ∧
    renderedStateCell exDev4w =
      DiffRendering.withTooltip "missing" ("Previous: " ++ "found") ∧
    renderedRssiCell exDev4w =
      DiffRendering.withTooltip "-70" ("Previous: " ++ "-40") := by
  have h := C4_theorem exDev4w (exSnap "found" "-40") rfl
  exact ⟨rfl, h.1 (by decide) (by decide), h.2 (by decide) (by decide)⟩

/-- Claim C5: displaying a crash's details does not reproduce the stored
`content` byte-for-byte — the content is interpolated into markup
assigned to `innerHTML`, so the browser interprets it: the stored
content `a &amp; b` is presented as `a & b`. -/
theorem C5_code_bug :
    displayedCrashContent "a &amp; b" = "a & b" ∧
    displayedCrashContent "a &amp; b" ≠ "a &amp; b" := by
  constructor
  · decide
  · decide

/-- Claim C6, counterexample: a non-numeric raw-string health rate
(`warming-up`) is rendered with the `%` suffix appended, and an absent
health rate is rendered as the text `undefined%` — the suffix is not
restricted to numeric values. -/
theorem C6_counterexample :
    (exDev6.current.health_data.map HealthData.overallHealthRate = some "warming-up" ∧
      healthRateCurrentText exDev6 = "warming-up%") ∧
    (exDev6b.current.health_data = none ∧
      healthRateCurrentText exDev6b = "undefined%") := by
  exact ⟨⟨rfl, rfl⟩, ⟨rfl, rfl⟩⟩

/-- Claim C6, amended: the display layer appends `%` to the current
`overall_health_rate` unconditionally — whatever raw string is stored,
numeric or not, and even when `health_data` is absent, in which case the
cell shows the text `undefined%`. -/
theorem C6_amended (d : DeviceData) :
    (∃ t, healthRateCurrentText d = t ++ "%") ∧
    (d.current.health_data = none → healthRateCurrentText d = "undefined%") ∧
    (∀ h, d.current.health_data = some h →
      healthRateCurrentText d = h.overallHealthRate ++ "%") := by
  refine ⟨⟨jsTemplateOpt (d.current.health_data.map HealthData.overallHealthRate), rfl⟩, ?_, ?_⟩
  · intro h0
    simp [healthRateCurrentText, h0, jsTemplateOpt]
  · intro h h0
    simp [healthRateCurrentText, h0, jsTemplateOpt]

/-- Witness for `C6_amended` at concrete devices: a stored non-numeric
rate gets the suffix, and an absent health rate shows `undefined%`. -/
theorem C6_amended_witness :
    exDev6b.current.health_data = none ∧
    healthRateCurrentText exDev6b = "undefined%" ∧
    exDev6.current.health_data = some { deviceName := "Lamp B", reason := "ok",
                                        overallHealthRate := "warming-up" } ∧
    healthRateCurrentText exDev6 = "warming-up" ++ "%" := by
  refine ⟨rfl, (C6_amended exDev6b).2.1 rfl, rfl, (C6_amended exDev6).2.2 _ rfl⟩

/-- Claim C7: diff styling and diff rendering are pure functions of the
(current, previous) pair — two evaluations on identical inputs yield
identical classification and rendered output, with no further inputs
they could depend on. -/
theorem C7_theorem (c c' : String) (p p' : Option String)
    (hc : c = c') (hp : p = p') :
    getDiffStyle c p = getDiffStyle c' p' ∧
    renderDiffValue c p = renderDiffValue c' p' := by
  subst hc
  subst hp
  exact ⟨rfl, rfl⟩

/-- Witness for `C7_theorem` at a concrete input pair. -/
theorem C7_theorem_witness :
    ("missing" : String) = "missing" ∧
    (some "found" : Option String) = some "found" ∧
    (getDiffStyle "missing" (some "found") = getDiffStyle "missing" (some "found") ∧
      renderDiffValue "missing" (some "found") = renderDiffValue "missing" (some "found")) :=
  ⟨rfl, rfl, C7_theorem "missing" "missing" (some "found") (some "found") rfl rfl⟩

/-- Claim C8, counterexample: a dropped file named `capture.tgz` whose
declared MIME type is `text/plain` — not `application/gzip` — is still
accepted and submitted for ingestion, because the accept matching also
passes files by extension alone. -/
theorem C8_counterexample :
    exFile8.type ≠ "application/gzip" ∧
    submittedFile [exFile8] = some exFile8 := by
  constructor
  · decide
  · decide

/-- Claim C8, amended: every file the uploader submits for ingestion
has declared MIME type `application/gzip` or a name ending (case
insensitively) in `.tgz`; a file matching neither is never submitted. -/
theorem C8_amended (dropped : List JsFile) (f : JsFile)
    (h : submittedFile dropped = some f) :
    f.type = "application/gzip" ∨ strEndsWith (strToLower f.name) ".tgz" = true := by
  have hmem : f ∈ dropped.filter dropzoneAccepts := by
    unfold submittedFile at h
    rcases hh : dropped.filter dropzoneAccepts with _ | ⟨a, l⟩ <;> rw [hh] at h
    · cases h
    · have ha : a = f := by simpa using h
      rw [← ha]
      exact List.mem_cons_self a l
  have hacc : dropzoneAccepts f = true := (List.mem_filter.mp hmem).2
  simpa [dropzoneAccepts, Bool.or_eq_true, beq_iff_eq] using hacc

/-- Witness for `C8_amended`: a well-formed upload is submitted and
satisfies the acceptance disjunction. -/
theorem C8_amended_witness :
    submittedFile [exFile8b] = some exFile8b ∧
    (exFile8b.type = "application/gzip" ∨
      strEndsWith (strToLower exFile8b.name) ".tgz" = true) :=
  ⟨by decide, C8_amended [exFile8b] exFile8b (by decide)⟩

/-- Claim C9: with a non-empty name filter, a device whose snapshot has
`health_data` absent is excluded from `filteredDevices` (the optional
chain makes the name predicate a non-match), while with an empty name
filter the same device stays in the list whenever it passes the state
predicate. -/
theorem C9_theorem (stateFilter nameFilter : String) (devices : List DeviceData)
    (d : DeviceData) (hn : nameFilter ≠ "") (hh : d.current.health_data = none) :
    d ∉ filteredDevices stateFilter nameFilter devices ∧
    (d ∈ devices → matchesState stateFilter d = true →
      d ∈ filteredDevices stateFilter "" devices) := by
  constructor
  · intro hmem
    have h2 := (List.mem_filter.mp hmem).2
    have h3 : matchesName nameFilter d = false := by
      simp [matchesName, hn, hh]
    rw [Bool.and_eq_true, h3] at h2
    exact Bool.false_ne_true h2.2
  · intro hd hs
    refine List.mem_filter.mpr ⟨hd, ?_⟩
    have hname : matchesName "" d = true := by
      simp [matchesName]
    rw [Bool.and_eq_true]
    exact ⟨hs, hname⟩

/-- Witness for `C9_theorem`: a device without `health_data` vanishes
under the name filter `lamp` and stays visible with no name filter. -/
theorem C9_theorem_witness :
    ("lamp" : String) ≠ "" ∧ exDev9.current.health_data = none ∧
    (exDev9 ∉ filteredDevices "" "lamp" [exDev9] ∧
      (exDev9 ∈ [exDev9] → matchesState "" exDev9 = true →
        exDev9 ∈ filteredDevices "" "" [exDev9])) :=
  ⟨by decide, rfl, C9_theorem "" "lamp" [exDev9] exDev9 (by decide) rfl⟩

/-- Claim C10: choosing any value through the project selector — a
project id or the empty placeholder — resets the capture selection to
none in the same handler, whatever capture was selected before; the
device-view query built from the resulting state carries no capture id,
so a capture of a previously selected project is never retained across
a project change. The upload-success path resets the capture as well. -/
theorem C10_theorem (s : AppState) (v : String) (pid : Int) :
    (projectSelectorOnChange v s).selectedCapture = none ∧
    (handleUploadSuccess pid s).selectedCapture = none ∧
    captureQuerySuffix (projectSelectorOnChange v s).selectedCapture = "" :=
  ⟨rfl, rfl, rfl⟩

end SavantLogger
